import Mathlib

/-! # Unique-device classification (`uniquedevice.go`)

A shallow embedding of `check`, `setCookie`, `New` and the three accessors of
package `uniquedevice`, together with the parts of Go's `time` and `net/http`
packages that `check` calls.

Go strings are byte sequences; they are modelled as `List Nat` (every element a
byte value).  A `time.Time` is modelled by what `check` observes of it: the civil
date reported by `Year`, `Month` and `Day` (in the value's own Location) and the
instant, in nanoseconds since the Unix epoch.
-/

namespace uniquedevice

/-! ## Go strings -/

/-- Bytes of a Go string literal (Go source text is UTF-8). -/
def str (s : String) : List Nat := s.toUTF8.data.toList.map UInt8.toNat

/-! ## Package constants (`uniquedevice.go`, lines 20-25) -/

/-- Cookie name, the constant `name`. -/
def name : List Nat := str "last_access"

/-- The date layout, the constant `layout`. -/
def layout : List Nat := str "02-Jan-2006"

/-- Cookie path, the constant `path`. -/
def path : List Nat := str "/"

/-- Go's `time.Hour`, a `Duration` in nanoseconds. -/
def Hour : Int := 60 * (60 * (1000 * (1000 * 1000)))

/-- Cookie lifetime, the constant `expires = 30 * 24 * time.Hour`. -/
def expires : Int := 30 * 24 * Hour

/-- Equality of two Go results (a value or an error) is decidable. -/
instance instDecidableEqExcept {ε α : Type} [DecidableEq ε] [DecidableEq α] :
    DecidableEq (Except ε α)
  | .ok a, .ok b => if h : a = b then isTrue (by rw [h]) else isFalse (by simp [h])
  | .error a, .error b => if h : a = b then isTrue (by rw [h]) else isFalse (by simp [h])
  | .ok _, .error _ => isFalse (by simp)
  | .error _, .ok _ => isFalse (by simp)

/-! ## Package `time` -/

/-- The observable part of a Go `time.Time`. -/
structure Time where
  /-- Result of `Year()`. -/
  year : Int
  /-- Result of `Month()`, January = 1. -/
  month : Nat
  /-- Result of `Day()`. -/
  day : Nat
  /-- The instant, nanoseconds since 1970-01-01T00:00:00Z. -/
  unixNano : Int
  deriving DecidableEq, Repr

/-- Go's `isLeap`. -/
def isLeap (year : Int) : Bool :=
  year % 4 == 0 && (year % 100 != 0 || year % 400 == 0)

/-- Go's table `daysBefore`: days in a non-leap year before the end of month `m`. -/
def daysBefore : List Nat :=
  [0, 31, 31 + 28, 31 + 28 + 31, 31 + 28 + 31 + 30, 31 + 28 + 31 + 30 + 31,
   31 + 28 + 31 + 30 + 31 + 30, 31 + 28 + 31 + 30 + 31 + 30 + 31,
   31 + 28 + 31 + 30 + 31 + 30 + 31 + 31, 31 + 28 + 31 + 30 + 31 + 30 + 31 + 31 + 30,
   31 + 28 + 31 + 30 + 31 + 30 + 31 + 31 + 30 + 31,
   31 + 28 + 31 + 30 + 31 + 30 + 31 + 31 + 30 + 31 + 30,
   31 + 28 + 31 + 30 + 31 + 30 + 31 + 31 + 30 + 31 + 30 + 31]

/-- Go's `daysIn`: the number of days of month `m` in `year`. -/
def daysIn (m : Nat) (year : Int) : Nat :=
  if m = 2 ∧ isLeap year = true then 29
  else daysBefore.getD m 0 - daysBefore.getD (m - 1) 0

/-- A `Time` shows a real calendar date: what every value returned by `time.Now()`
and by a successful `time.Parse` satisfies. -/
def Time.Valid (t : Time) : Prop :=
  1 ≤ t.month ∧ t.month ≤ 12 ∧ 1 ≤ t.day ∧ t.day ≤ daysIn t.month t.year

instance (t : Time) : Decidable t.Valid := by
  unfold Time.Valid; infer_instance

/-- Days from 1970-01-01 to the given date of the proleptic Gregorian calendar. -/
def daysSinceUnixEpoch (year : Int) (month day : Nat) : Int :=
  let y := year - 1
  365 * y + y / 4 - y / 100 + y / 400
    + (daysBefore.getD (month - 1) 0 : Nat)
    + (if isLeap year = true ∧ 3 ≤ month then 1 else 0)
    + ((day : Int) - 1) - 719162

/-- Go's `time.Date(year, month, day, 0, 0, 0, 0, time.UTC)` on an in-range month
and day (no normalisation is needed, and `Year`, `Month`, `Day` give the arguments
back). -/
def Date (year : Int) (month day : Nat) : Time :=
  { year := year, month := month, day := day,
    unixNano := daysSinceUnixEpoch year month day * (24 * Hour) }

/-- Go's `Time.Add`, observed through the instant of its result. -/
def Time.Add (t : Time) (d : Int) : Int := t.unixNano + d

/-- Go's table `longMonthNames`. -/
def longMonthNames : List (List Nat) :=
  [str "January", str "February", str "March", str "April", str "May", str "June",
   str "July", str "August", str "September", str "October", str "November",
   str "December"]

/-- Go's table `shortMonthNames`. -/
def shortMonthNames : List (List Nat) :=
  [str "Jan", str "Feb", str "Mar", str "Apr", str "May", str "Jun",
   str "Jul", str "Aug", str "Sep", str "Oct", str "Nov", str "Dec"]

/-- Decimal digits of `u`, most significant first, at most `fuel` of them. -/
def utoa : Nat → Nat → List Nat
  | 0, _ => []
  | fuel + 1, u => if u < 10 then [48 + u] else utoa fuel (u / 10) ++ [48 + u % 10]

/-- Go's `appendInt`: append the decimal form of `x`, zero-padded to `width`
digits, after a minus sign when `x` is negative.  A Go `uint` has at most 20
decimal digits (the source assembles them in a `[20]byte` buffer). -/
def appendInt (b : List Nat) (x : Int) (width : Nat) : List Nat :=
  let b := if x < 0 then b ++ [45] else b
  let ds := utoa 20 x.natAbs
  b ++ List.replicate (width - ds.length) 48 ++ ds

/-- Go's `Month.String`. -/
def Month.String (m : Nat) : List Nat :=
  if 1 ≤ m ∧ m ≤ 12 then longMonthNames.getD (m - 1) []
  else str "%!Month(" ++ utoa 20 m ++ str ")"

/-- Go's `t.Format(layout)` for the layout "02-Jan-2006", which `nextStdChunk`
splits into `stdZeroDay`, "-", `stdMonth`, "-", `stdLongYear`. -/
def Time.Format (t : Time) : List Nat :=
  let b := appendInt [] t.day 2
  let b := b ++ str "-"
  let b := b ++ (Month.String t.month).take 3
  let b := b ++ str "-"
  appendInt b t.year 4

/-- Errors of `time.Parse`. -/
inductive ParseError where
  /-- Go's `errBad`, and `errAtoi`. -/
  | bad
  /-- Text left over after the layout is used up. -/
  | extraText
  /-- The day does not exist in the month. -/
  | dayOutOfRange
  deriving DecidableEq, Repr

/-- Go's `isDigit`: is there a decimal digit at index `i` of `s`. -/
def isDigit (s : List Nat) (i : Nat) : Bool :=
  match s.get? i with
  | none => false
  | some c => 48 ≤ c && c ≤ 57

/-- Go's `getnum`: a one- or two-digit number; with `fixed` it must have two. -/
def getnum (s : List Nat) (fixed : Bool) : Except ParseError (Nat × List Nat) :=
  if !isDigit s 0 then .error .bad
  else if !isDigit s 1 then
    if fixed then .error .bad
    else .ok (s.getD 0 0 - 48, s.drop 1)
  else .ok ((s.getD 0 0 - 48) * 10 + (s.getD 1 0 - 48), s.drop 2)

/-- Go's `cutspace`. -/
def cutspace : List Nat → List Nat
  | 32 :: s => cutspace s
  | s => s

/-- The loop of Go's `skip`; every round shortens `pfx`, so `fuel` rounds are
enough when `fuel` is at least the length of `pfx`. -/
def skipLoop : Nat → List Nat → List Nat → Except ParseError (List Nat)
  | _, value, [] => .ok value
  | 0, _, _ :: _ => .error .bad
  | fuel + 1, value, p :: ps =>
    if p = 32 then
      if value.length > 0 ∧ value.getD 0 0 ≠ 32 then .error .bad
      else skipLoop fuel (cutspace value) (cutspace (p :: ps))
    else if value.length = 0 ∨ value.getD 0 0 ≠ p then .error .bad
    else skipLoop fuel (value.drop 1) ps

/-- Go's `skip`: remove the literal text `pfx` from the front of `value`; a space
in `pfx` stands for any run of spaces. -/
def skip (value pfx : List Nat) : Except ParseError (List Nat) :=
  skipLoop pfx.length value pfx

/-- Go's `match`: equality of two strings of the same length, ignoring ASCII case. -/
def «match» : List Nat → List Nat → Bool
  | c1 :: s1, c2 :: s2 =>
    if c1 ≠ c2 then
      let d1 := c1 ||| 32
      let d2 := c2 ||| 32
      if d1 ≠ d2 ∨ d1 < 97 ∨ d1 > 122 then false else «match» s1 s2
    else «match» s1 s2
  | _, _ => true

/-- The loop of Go's `lookup` over the entries of the table that are left, `i`
counting the entries passed. -/
def lookupLoop (val : List Nat) (i : Nat) : List (List Nat) → Except ParseError (Nat × List Nat)
  | [] => .error .bad
  | v :: rest =>
    if val.length ≥ v.length ∧ «match» (val.take v.length) v = true then
      .ok (i, val.drop v.length)
    else lookupLoop val (i + 1) rest

/-- Go's `lookup`: index of the first entry of `tab` that `val` starts with,
ignoring case, and the rest of `val`. -/
def lookup (tab : List (List Nat)) (val : List Nat) : Except ParseError (Nat × List Nat) :=
  lookupLoop val 0 tab

/-- The loop of Go's `leadingInt`, `x` the number read so far. -/
def leadingIntLoop (x : Nat) : List Nat → Except ParseError (Nat × List Nat)
  | [] => .ok (x, [])
  | c :: rest =>
    if c < 48 ∨ c > 57 then .ok (x, c :: rest)
    else if x > 2 ^ 63 / 10 then .error .bad
    else
      let x1 := x * 10 + c - 48
      if x1 > 2 ^ 63 then .error .bad else leadingIntLoop x1 rest

/-- Go's `leadingInt`: the leading decimal digits of `s` as a number, and the
rest of `s`; an error when the number passes 2^63. -/
def leadingInt (s : List Nat) : Except ParseError (Nat × List Nat) :=
  leadingIntLoop 0 s

/-- Go's `atoi`: an optionally signed decimal number filling all of `s`. -/
def atoi (s : List Nat) : Except ParseError Int :=
  let neg := s.length > 0 ∧ s.getD 0 0 = 45
  let s1 := if s.length > 0 ∧ (s.getD 0 0 = 45 ∨ s.getD 0 0 = 43) then s.drop 1 else s
  match leadingInt s1 with
  | .error e => .error e
  | .ok (q, rem) =>
    if rem.length > 0 then .error .bad
    else if neg then .ok (-(q : Int)) else .ok (q : Int)

/-- Go's `time.Parse(layout, value)` for the layout "02-Jan-2006": the chunks
`stdZeroDay`, "-", `stdMonth`, "-", `stdLongYear` are read in turn, nothing may
be left over, and the day must exist in the month. -/
def Parse (value : List Nat) : Except ParseError Time :=
  -- chunk 1: no literal text, then stdZeroDay
  match getnum value true with
  | .error e => .error e
  | .ok (day, value) =>
  -- chunk 2: "-", then stdMonth
  match skip value (str "-") with
  | .error e => .error e
  | .ok value =>
  match lookup shortMonthNames value with
  | .error e => .error e
  | .ok (m, value) =>
  let month := m + 1
  -- chunk 3: "-", then stdLongYear
  match skip value (str "-") with
  | .error e => .error e
  | .ok value =>
  if value.length < 4 ∨ isDigit value 0 = false then .error .bad
  else
  match atoi (value.take 4) with
  | .error e => .error e
  | .ok year =>
  let value := value.drop 4
  -- end of the layout
  if value.length ≠ 0 then .error .extraText
  else if day < 1 ∨ day > daysIn month year then .error .dayOutOfRange
  else .ok (Date year month day)



/-! ## Package `net/http` -/

/-- Go's `http.Cookie`: the fields `setCookie` fills in (all others keep their zero
value); `Expires` is the instant, in nanoseconds since the Unix epoch. -/
structure Cookie where
  /-- Field `Name`. -/
  Name : List Nat
  /-- Field `Value`. -/
  Value : List Nat
  /-- Field `Path`. -/
  Path : List Nat
  /-- Field `Expires`. -/
  Expires : Int
  deriving DecidableEq, Repr

/-- A Go `error` as `check` tells them apart: the sentinel `http.ErrNoCookie`, or
any other error value. -/
inductive Error where
  /-- The sentinel `http.ErrNoCookie`. -/
  | ErrNoCookie
  /-- Any other error, with its message. -/
  | other (msg : List Nat)
  deriving DecidableEq, Repr

/-- Go's `*http.Request`, seen through its method `Cookie(name)`. -/
structure Request where
  /-- Method `Cookie`: the named cookie, or an error. -/
  Cookie : List Nat → Except Error Cookie

/-- Go's `http.ResponseWriter`, seen through the cookies added to its header, in
the order they were added. -/
structure ResponseWriter where
  /-- The cookies added as `Set-Cookie` header lines. -/
  cookies : List Cookie
  deriving DecidableEq, Repr

/-- Go's `http.SetCookie`: adds one `Set-Cookie` header line for the cookie (the
cookie name used here is a valid one, so the line is never dropped). -/
def SetCookie (w : ResponseWriter) (cookie : Cookie) : ResponseWriter :=
  { cookies := w.cookies ++ [cookie] }

/-! ## The system clock -/

/-- The system clock: the readings that successive calls of `time.Now()` return,
and the number of calls made so far. -/
structure Clock where
  /-- The reading returned by call number `i`. -/
  readings : Nat → Time
  /-- The calls made so far. -/
  taken : Nat

/-- Go's `time.Now()`: the next reading, and the clock after the call. -/
def Now (k : Clock) : Time × Clock :=
  (k.readings k.taken, { k with taken := k.taken + 1 })

/-! ## Package `uniquedevice` -/

/-- The struct `UniqueDevice` (`uniquedevice.go`, lines 27-31). -/
structure UniqueDevice where
  /-- Field `dailyUnique`. -/
  dailyUnique : Bool
  /-- Field `monthlyUnique`. -/
  monthlyUnique : Bool
  /-- Field `noCookie`. -/
  noCookie : Bool
  deriving DecidableEq, Repr

/-- The function `setCookie` (`uniquedevice.go`, lines 81-88). -/
def setCookie (w : ResponseWriter) (t : Time) (k : Clock) : ResponseWriter × Clock :=
  let (n, k) := Now k
  (SetCookie w { Name := name, Value := t.Format, Path := path, Expires := n.Add expires }, k)

/-- The function `check` (`uniquedevice.go`, lines 40-79): the three results, the
response writer and the clock after the call. -/
def check (w : ResponseWriter) (r : Request) (k : Clock) :
    (Bool × Bool × Bool) × ResponseWriter × Clock :=
  let (t, k) := Now k
  -- get cookie
  let res := r.Cookie name
  -- set/renew cookie
  let (w, k) := setCookie w t k
  match res with
  | .error err =>
    if err = Error.ErrNoCookie then ((true, true, true), w, k)
    -- reading cookie failed
    else ((true, true, false), w, k)
  | .ok c =>
    -- parse last access time
    match Parse c.Value with
    -- parsing failed
    | .error _ => ((true, true, false), w, k)
    | .ok ct =>
      if ct.year ≠ t.year then ((true, true, false), w, k)
      else if ct.month ≠ t.month then ((true, true, false), w, k)
      else if ct.day ≠ t.day then ((true, false, false), w, k)
      else ((false, false, false), w, k)

/-- The function `New` (`uniquedevice.go`, lines 33-38). -/
def New (w : ResponseWriter) (r : Request) (k : Clock) :
    UniqueDevice × ResponseWriter × Clock :=
  let ((du, mu, nc), w, k) := check w r k
  ({ dailyUnique := du, monthlyUnique := mu, noCookie := nc }, w, k)

/-- The method `DailyUnique` (`uniquedevice.go`, lines 92-94). -/
def UniqueDevice.DailyUnique (this : UniqueDevice) : Bool := this.dailyUnique

/-- The method `MonthlyUnique` (`uniquedevice.go`, lines 98-100). -/
def UniqueDevice.MonthlyUnique (this : UniqueDevice) : Bool := this.monthlyUnique

/-- The method `NoCookie` (`uniquedevice.go`, lines 105-107). -/
def UniqueDevice.NoCookie (this : UniqueDevice) : Bool := this.noCookie

/-! ## The pointer returned by the cookie lookup -/

/-- The two results of Go's `r.Cookie(name)`: the pointer `c`, which is nil (`none`)
when the lookup failed, and the error `err`, which is nil (`none`) when it
succeeded. -/
def CookiePair (r : Request) (n : List Nat) : Option Cookie × Option Error :=
  match r.Cookie n with
  | .ok c => (some c, none)
  | .error e => (none, some e)

/-- The function `check` (`uniquedevice.go`, lines 40-79) with the pointer `c`
made explicit: the result `none` stands for the panic of reading `c.Value`
through a nil pointer. -/
def checkDeref (w : ResponseWriter) (r : Request) (k : Clock) :
    Option ((Bool × Bool × Bool) × ResponseWriter × Clock) :=
  let (t, k) := Now k
  -- get cookie
  let (c, err) := CookiePair r name
  -- set/renew cookie
  let (w, k) := setCookie w t k
  match err with
  | some e =>
    if e = Error.ErrNoCookie then some ((true, true, true), w, k)
    -- reading cookie failed
    else some ((true, true, false), w, k)
  | none =>
    match c with
    | none => none
    | some c =>
      -- parse last access time
      match Parse c.Value with
      -- parsing failed
      | .error _ => some ((true, true, false), w, k)
      | .ok ct =>
        if ct.year ≠ t.year then some ((true, true, false), w, k)
        else if ct.month ≠ t.month then some ((true, true, false), w, k)
        else if ct.day ≠ t.day then some ((true, false, false), w, k)
        else some ((false, false, false), w, k)

/-! ## The date pattern of the specification -/

/-- Is the byte `c` a decimal digit. -/
def isDigitByte (c : Nat) : Bool := decide (48 ≤ c ∧ c ≤ 57)

/-- The ASCII lower-case form of the byte `c`. -/
def toLower (c : Nat) : Nat := if 65 ≤ c ∧ c ≤ 90 then c + 32 else c

/-- The pattern DD-Mon-YYYY of the specification, matched exactly: two digits, a
hyphen, a month abbreviation as the formatter writes it, a hyphen, four digits. -/
def matchesPattern : List Nat → Bool
  | [d1, d2, h1, l1, l2, l3, h2, y1, y2, y3, y4] =>
    isDigitByte d1 && isDigitByte d2 && decide (h1 = 45)
      && decide ([l1, l2, l3] ∈ shortMonthNames)
      && decide (h2 = 45)
      && isDigitByte y1 && isDigitByte y2 && isDigitByte y3 && isDigitByte y4
  | _ => false

/-- The pattern DD-Mon-YYYY with the letters of the month abbreviation in any
case: two digits, a hyphen, three letters that are a month abbreviation once
brought to lower case, a hyphen, four digits. -/
def matchesPatternAnyCase : List Nat → Bool
  | [d1, d2, h1, l1, l2, l3, h2, y1, y2, y3, y4] =>
    isDigitByte d1 && isDigitByte d2 && decide (h1 = 45)
      && decide ([l1, l2, l3].map toLower ∈ shortMonthNames.map (List.map toLower))
      && decide (h2 = 45)
      && isDigitByte y1 && isDigitByte y2 && isDigitByte y3 && isDigitByte y4
  | _ => false

/-! ## Sample inputs -/

/-- A clock all of whose readings are `t`. -/
def fixedClock (t : Time) : Clock := { readings := fun _ => t, taken := 0 }

/-- A request carrying the cookie `last_access` with value `v` and no other. -/
def requestWith (v : List Nat) : Request :=
  { Cookie := fun n =>
      if n = name then .ok { Name := name, Value := v, Path := [], Expires := 0 }
      else .error Error.ErrNoCookie }

/-- A request carrying no cookie. -/
def requestWithout : Request := { Cookie := fun _ => .error Error.ErrNoCookie }

/-- A request whose cookie lookup fails with an error other than `ErrNoCookie`. -/
def requestBroken : Request := { Cookie := fun _ => .error (Error.other (str "broken")) }

/-- A response writer with no cookie set yet. -/
def emptyWriter : ResponseWriter := { cookies := [] }

/-- The reading 2024-03-15T10:00:00Z. -/
def march15 : Time := { year := 2024, month := 3, day := 15, unixNano := 1710496800 * 1000000000 }


/-- The reading 10000-01-01T00:00:00Z. -/
def newYear10000 : Time :=
  { year := 10000, month := 1, day := 1, unixNano := 253402300800 * 1000000000 }

/-- The reading at midnight UTC on the first of January of year -1. -/
def newYearMinus1 : Time :=
  { year := -1, month := 1, day := 1, unixNano := -62198755200 * 1000000000 }

/-! ## Theorems -/

/-- C1: whenever the `last_access` cookie parses to a date whose year, month and
day all equal those of `now`, `check` returns (false, false, false). -/
theorem check_same_day (w : ResponseWriter) (r : Request) (k : Clock) (c : Cookie) (ct : Time)
    (hc : r.Cookie name = .ok c) (hp : Parse c.Value = .ok ct)
    (hy : ct.year = (Now k).1.year) (hm : ct.month = (Now k).1.month)
    (hd : ct.day = (Now k).1.day) :
    (check w r k).1 = (false, false, false) := by
  simp only [Now] at hy hm hd
  simp [check, setCookie, Now, hc, hp, hy, hm, hd]

/-- Witness of C1: now = 2024-03-15T10:00:00Z, cookie "15-Mar-2024". -/
theorem check_same_day_witness :
    Parse (str "15-Mar-2024") = .ok (Date 2024 3 15) ∧
    (check emptyWriter (requestWith (str "15-Mar-2024")) (fixedClock march15)).1
      = (false, false, false) :=
  ⟨by decide,
   check_same_day emptyWriter (requestWith (str "15-Mar-2024")) (fixedClock march15)
    { Name := name, Value := str "15-Mar-2024", Path := [], Expires := 0 } (Date 2024 3 15)
    (by decide) (by decide) (by decide) (by decide) (by decide)⟩

/-- C2: whenever the cookie parses to a date with the year and month of `now` but
another day, `check` returns (true, false, false). -/
theorem check_same_month_other_day (w : ResponseWriter) (r : Request) (k : Clock)
    (c : Cookie) (ct : Time)
    (hc : r.Cookie name = .ok c) (hp : Parse c.Value = .ok ct)
    (hy : ct.year = (Now k).1.year) (hm : ct.month = (Now k).1.month)
    (hd : ct.day ≠ (Now k).1.day) :
    (check w r k).1 = (true, false, false) := by
  simp only [Now] at hy hm hd
  simp [check, setCookie, Now, hc, hp, hy, hm, hd]

/-- Witness of C2: now = 2024-03-15, cookie "01-Mar-2024". -/
theorem check_same_month_other_day_witness :
    Parse (str "01-Mar-2024") = .ok (Date 2024 3 1) ∧
    (check emptyWriter (requestWith (str "01-Mar-2024")) (fixedClock march15)).1
      = (true, false, false) :=
  ⟨by decide,
   check_same_month_other_day emptyWriter (requestWith (str "01-Mar-2024")) (fixedClock march15)
    { Name := name, Value := str "01-Mar-2024", Path := [], Expires := 0 } (Date 2024 3 1)
    (by decide) (by decide) (by decide) (by decide) (by decide)⟩

/-- C3: whenever the cookie parses to a date whose year differs from the year of
`now`, or whose year is the same and whose month differs, `check` returns
(true, true, false), whatever the two days of the month are. -/
theorem check_other_month_or_year (w : ResponseWriter) (r : Request) (k : Clock)
    (c : Cookie) (ct : Time)
    (hc : r.Cookie name = .ok c) (hp : Parse c.Value = .ok ct)
    (h : ct.year ≠ (Now k).1.year ∨
      (ct.year = (Now k).1.year ∧ ct.month ≠ (Now k).1.month)) :
    (check w r k).1 = (true, true, false) := by
  simp only [Now] at h
  rcases h with hy | ⟨hy, hm⟩
  · simp [check, setCookie, Now, hc, hp, hy]
  · simp [check, setCookie, Now, hc, hp, hy, hm]

/-- Witness of C3: now = 2024-03-15, cookie "20-Feb-2024". -/
theorem check_other_month_or_year_witness :
    Parse (str "20-Feb-2024") = .ok (Date 2024 2 20) ∧
    (check emptyWriter (requestWith (str "20-Feb-2024")) (fixedClock march15)).1
      = (true, true, false) :=
  ⟨by decide,
   check_other_month_or_year emptyWriter (requestWith (str "20-Feb-2024")) (fixedClock march15)
    { Name := name, Value := str "20-Feb-2024", Path := [], Expires := 0 } (Date 2024 2 20)
    (by decide) (by decide) (Or.inr ⟨by decide, by decide⟩)⟩

/-- C4: when the cookie lookup fails with `http.ErrNoCookie`, `check` returns
(true, true, true). -/
theorem check_no_cookie (w : ResponseWriter) (r : Request) (k : Clock)
    (hc : r.Cookie name = .error Error.ErrNoCookie) :
    (check w r k).1 = (true, true, true) := by
  simp [check, setCookie, Now, hc]

/-- Witness of C4: now = 2024-03-15, no cookie sent. -/
theorem check_no_cookie_witness :
    (check emptyWriter requestWithout (fixedClock march15)).1 = (true, true, true) :=
  check_no_cookie emptyWriter requestWithout (fixedClock march15) (by decide)

/-- C5: when the cookie value does not parse as a date in the layout
"02-Jan-2006", `check` returns (true, true, false). -/
theorem check_unparseable (w : ResponseWriter) (r : Request) (k : Clock)
    (c : Cookie) (e : ParseError)
    (hc : r.Cookie name = .ok c) (hp : Parse c.Value = .error e) :
    (check w r k).1 = (true, true, false) := by
  simp [check, setCookie, Now, hc, hp]

/-- Witness of C5: now = 2024-03-15, cookie "not-a-date". -/
theorem check_unparseable_witness :
    Parse (str "not-a-date") = .error ParseError.bad ∧
    (check emptyWriter (requestWith (str "not-a-date")) (fixedClock march15)).1
      = (true, true, false) :=
  ⟨by decide,
   check_unparseable emptyWriter (requestWith (str "not-a-date")) (fixedClock march15)
    { Name := name, Value := str "not-a-date", Path := [], Expires := 0 } ParseError.bad
    (by decide) (by decide)⟩

/-- C6: when the cookie lookup fails with an error other than `http.ErrNoCookie`,
`check` returns (true, true, false). -/
theorem check_unreadable (w : ResponseWriter) (r : Request) (k : Clock) (err : Error)
    (hc : r.Cookie name = .error err) (he : err ≠ Error.ErrNoCookie) :
    (check w r k).1 = (true, true, false) := by
  simp [check, setCookie, Now, hc, he]

/-- Witness of C6: now = 2024-03-15, a lookup that fails with another error. -/
theorem check_unreadable_witness :
    (check emptyWriter requestBroken (fixedClock march15)).1 = (true, true, false) :=
  check_unreadable emptyWriter requestBroken (fixedClock march15)
    (Error.other (str "broken")) (by decide) (by decide)

/-! ### The round trip through the cookie -/

/-- The literal between the chunks of the layout is one hyphen. -/
theorem str_dash : str "-" = [45] := by decide

/-- The table of month abbreviations, byte by byte. -/
theorem shortMonthNames_eq : shortMonthNames =
    [[74, 97, 110], [70, 101, 98], [77, 97, 114], [65, 112, 114], [77, 97, 121],
     [74, 117, 110], [74, 117, 108], [65, 117, 103], [83, 101, 112], [79, 99, 116],
     [78, 111, 118], [68, 101, 99]] := by decide

/-- A number below ten has one digit. -/
theorem utoa_lt_ten (f u : Nat) (h : u < 10) : utoa (f + 1) u = [48 + u] := by
  simp [utoa, h]

/-- A number from ten on ends in its last digit. -/
theorem utoa_ge_ten (f u : Nat) (h : 10 ≤ u) :
    utoa (f + 1) u = utoa f (u / 10) ++ [48 + u % 10] := by
  simp [utoa, Nat.not_lt.mpr h]

/-- Two-digit output of `appendInt` for a number below one hundred. -/
theorem appendInt_two (b : List Nat) (d : Nat) (h : d < 100) :
    appendInt b (d : Int) 2 = b ++ [48 + d / 10, 48 + d % 10] := by
  have hneg : ¬ ((d : Int) < 0) := by omega
  simp only [appendInt, hneg, if_false, Int.natAbs_ofNat]
  by_cases h10 : d < 10
  · rw [utoa_lt_ten 19 d h10]
    have h1 : d / 10 = 0 := by omega
    have h2 : d % 10 = d := by omega
    simp [h1, h2, List.replicate]
  · have h10 : 10 ≤ d := by omega
    rw [utoa_ge_ten 19 d h10, utoa_lt_ten 18 (d / 10) (by omega)]
    simp

/-- Four-digit output of `appendInt` for a number below ten thousand. -/
theorem appendInt_four (b : List Nat) (y : Nat) (h : y < 10000) :
    appendInt b (y : Int) 4
      = b ++ [48 + y / 1000, 48 + y / 100 % 10, 48 + y / 10 % 10, 48 + y % 10] := by
  have hneg : ¬ ((y : Int) < 0) := by omega
  simp only [appendInt, hneg, if_false, Int.natAbs_ofNat]
  by_cases h10 : y < 10
  · rw [utoa_lt_ten 19 y h10]
    have h1 : y / 1000 = 0 := by omega
    have h2 : y / 100 % 10 = 0 := by omega
    have h3 : y / 10 % 10 = 0 := by omega
    have h4 : y % 10 = y := by omega
    simp [h1, h2, h3, h4, List.replicate]
  · have h10 : 10 ≤ y := by omega
    rw [utoa_ge_ten 19 y h10]
    by_cases h100 : y < 100
    · rw [utoa_lt_ten 18 (y / 10) (by omega)]
      have h1 : y / 1000 = 0 := by omega
      have h2 : y / 100 % 10 = 0 := by omega
      have h3 : y / 10 % 10 = y / 10 := by omega
      simp [h1, h2, h3, List.replicate]
    · have h100 : 10 ≤ y / 10 := by omega
      rw [utoa_ge_ten 18 (y / 10) h100]
      by_cases h1000 : y < 1000
      · rw [utoa_lt_ten 17 (y / 10 / 10) (by omega)]
        have h1 : y / 1000 = 0 := by omega
        have h2 : y / 100 % 10 = y / 10 / 10 := by omega
        simp [h1, h2, List.replicate]
      · have h1000 : 10 ≤ y / 10 / 10 := by omega
        rw [utoa_ge_ten 17 (y / 10 / 10) h1000, utoa_lt_ten 16 (y / 10 / 10 / 10) (by omega)]
        have h1 : y / 10 / 10 / 10 = y / 1000 := by omega
        have h2 : y / 10 / 10 % 10 = y / 100 % 10 := by omega
        simp [h1, h2]


/-- The first three letters of a month name are its entry in `shortMonthNames`. -/
theorem month_abbrev (m : Nat) (h1 : 1 ≤ m) (h12 : m ≤ 12) :
    (Month.String m).take 3 = shortMonthNames.getD (m - 1) [] := by
  interval_cases m <;> decide

/-- The function `lookup` finds a month abbreviation at its own index. -/
theorem lookup_abbrev (m : Nat) (h1 : 1 ≤ m) (h12 : m ≤ 12) (rest : List Nat) :
    lookup shortMonthNames (shortMonthNames.getD (m - 1) [] ++ rest) = .ok (m - 1, rest) := by
  rw [shortMonthNames_eq]
  interval_cases m <;> simp [lookup, lookupLoop, «match»]

/-- The function `getnum` reads two digits. -/
theorem getnum_two (a b : Nat) (ha : a < 10) (hb : b < 10) (rest : List Nat) :
    getnum ((48 + a) :: (48 + b) :: rest) true = .ok (a * 10 + b, rest) := by
  have h0 : isDigit ((48 + a) :: (48 + b) :: rest) 0 = true := by
    simp [isDigit]; omega
  have h1 : isDigit ((48 + a) :: (48 + b) :: rest) 1 = true := by
    simp [isDigit]; omega
  simp [getnum, h0, h1]

/-- The function `skip` removes the hyphen. -/
theorem skip_dash (rest : List Nat) : skip (45 :: rest) (str "-") = .ok rest := by
  rw [str_dash]
  simp [skip, skipLoop]

/-- The function `atoi` reads four digits. -/
theorem atoi_four (a b c d : Nat) (ha : a < 10) (hb : b < 10) (hc : c < 10) (hd : d < 10) :
    atoi [48 + a, 48 + b, 48 + c, 48 + d]
      = .ok (((a * 1000 + b * 100 + c * 10 + d : Nat) : Int)) := by
  have e1 : ¬ (48 + a = 45) := by omega
  have e2 : ¬ (48 + a = 43) := by omega
  simp only [atoi, List.length_cons, List.getD_cons_zero, e1, e2, or_self, and_false, if_false,
    leadingInt, leadingIntLoop]
  have d1 : ¬ (48 + a < 48 ∨ 48 + a > 57) := by omega
  have d2 : ¬ (48 + b < 48 ∨ 48 + b > 57) := by omega
  have d3 : ¬ (48 + c < 48 ∨ 48 + c > 57) := by omega
  have d4 : ¬ (48 + d < 48 ∨ 48 + d > 57) := by omega
  have x1 : 0 * 10 + (48 + a) - 48 = a := by omega
  have x2 : a * 10 + (48 + b) - 48 = a * 10 + b := by omega
  have x3 : (a * 10 + b) * 10 + (48 + c) - 48 = a * 100 + b * 10 + c := by omega
  have x4 : (a * 100 + b * 10 + c) * 10 + (48 + d) - 48 = a * 1000 + b * 100 + c * 10 + d := by
    omega
  have p : (2 : Nat) ^ 63 = 9223372036854775808 := by norm_num
  have o0 : ¬ (0 > 9223372036854775808 / 10) := by omega
  have o1 : ¬ (a > 9223372036854775808 / 10) := by omega
  have o2 : ¬ (a * 10 + b > 9223372036854775808 / 10) := by omega
  have o3 : ¬ (a * 100 + b * 10 + c > 9223372036854775808 / 10) := by omega
  have q1 : ¬ (a > 9223372036854775808) := by omega
  have q2 : ¬ (a * 10 + b > 9223372036854775808) := by omega
  have q3 : ¬ (a * 100 + b * 10 + c > 9223372036854775808) := by omega
  have q4 : ¬ (a * 1000 + b * 100 + c * 10 + d > 9223372036854775808) := by omega
  simp only [d1, d2, d3, d4, x1, x2, x3, x4, p, o0, o1, o2, o3, q1, q2, q3, q4, if_false]
  simp


/-- No month has more than 31 days. -/
theorem daysIn_le (m : Nat) (year : Int) : daysIn m year ≤ 31 := by
  unfold daysIn
  split
  · omega
  · by_cases h : m ≤ 12
    · interval_cases m <;> decide
    · have h13 : 13 ≤ m := by omega
      have e : daysBefore.getD m 0 = 0 := by
        apply List.getD_eq_default
        simp [daysBefore]; omega
      omega

/-- The bytes `Format` writes for a real date in the years 0 to 9999: two digits, a hyphen, the month abbreviation, a hyphen, four digits. -/
theorem Format_eq (t : Time) (hv : t.Valid) (y : Nat) (hy : t.year = (y : Int))
    (h9 : y ≤ 9999) :
    t.Format = (48 + t.day / 10) :: (48 + t.day % 10) :: 45 ::
      (shortMonthNames.getD (t.month - 1) [] ++
        [45, 48 + y / 1000, 48 + y / 100 % 10, 48 + y / 10 % 10, 48 + y % 10]) := by
  obtain ⟨m1, m12, _, dle⟩ := hv
  have d31 := daysIn_le t.month t.year
  simp only [Time.Format, hy]
  rw [appendInt_two [] t.day (by omega), appendInt_four _ y (by omega),
    month_abbrev t.month m1 m12, str_dash]
  simp

/-- Parsing what `Format` wrote for a real date in the years 0 to 9999 gives the date back. -/
theorem Parse_Format (t : Time) (hv : t.Valid) (h0 : 0 ≤ t.year) (h9 : t.year ≤ 9999) :
    Parse t.Format = .ok (Date t.year t.month t.day) := by
  obtain ⟨y, hy⟩ := Int.eq_ofNat_of_zero_le h0
  have hy9 : y ≤ 9999 := by omega
  rw [Format_eq t hv y hy hy9]
  obtain ⟨m1, m12, d1, dle⟩ := hv
  have d31 := daysIn_le t.month t.year
  have ed : t.day / 10 * 10 + t.day % 10 = t.day := by omega
  have ey : y / 1000 * 1000 + y / 100 % 10 * 100 + y / 10 % 10 * 10 + y % 10 = y := by omega
  have em : t.month - 1 + 1 = t.month := by omega
  have hdig : isDigit [48 + y / 1000, 48 + y / 100 % 10, 48 + y / 10 % 10, 48 + y % 10] 0
      = true := by
    simp [isDigit]; omega
  simp only [Parse]
  rw [getnum_two (t.day / 10) (t.day % 10) (by omega) (Nat.mod_lt _ (by norm_num))]
  simp only [skip_dash]
  rw [lookup_abbrev t.month m1 m12]
  simp only [skip_dash, hdig, ed, em]
  simp only [List.length_cons, List.length_nil, List.take, List.drop]
  rw [atoi_four _ _ _ _ (by omega) (by omega) (by omega) (by omega), ey]
  rw [hy] at dle
  simp [hy]
  exact ⟨by omega, dle⟩


/-- C7 (amended): for every `now` that shows a real calendar date in the years 0
to 9999, when a first call of `check` issued a cookie and a second call with the
same `now` receives that value as its `last_access` cookie, the value parses to
the year, month and day of `now` and the second call returns
(false, false, false). -/
theorem check_twice_same_day (w w2 : ResponseWriter) (r r2 : Request) (k k2 : Clock)
    (c : Cookie)
    (hv : (Now k).1.Valid) (h0 : 0 ≤ (Now k).1.year) (h9 : (Now k).1.year ≤ 9999)
    (hc : r2.Cookie name = .ok c)
    (hval : ((check w r k).2.1.cookies.getLast?).map Cookie.Value = some c.Value)
    (hnow : (Now k2).1 = (Now k).1) :
    Parse c.Value = .ok (Date (Now k).1.year (Now k).1.month (Now k).1.day) ∧
      (check w2 r2 k2).1 = (false, false, false) := by
  have key : (check w r k).2.1 = (setCookie w (Now k).1 (Now k).2).1 := by
    simp only [check, Now]
    split
    · split <;> rfl
    · split
      · rfl
      · repeat' split
        all_goals rfl
  have hvalue : c.Value = (Now k).1.Format := by
    rw [key] at hval
    simp [setCookie, SetCookie, Now] at hval
    simp [Now, hval]
  have hp : Parse c.Value = .ok (Date (Now k).1.year (Now k).1.month (Now k).1.day) := by
    rw [hvalue]; exact Parse_Format _ hv h0 h9
  refine ⟨hp, ?_⟩
  simp only [Now] at hnow hp
  simp [check, setCookie, Now, hc, hp, hnow, Date]

/-- Witness of C7 (amended): now = 2024-03-15T10:00:00Z, the first call made
without a cookie. -/
theorem check_twice_same_day_witness :
    Parse (str "15-Mar-2024") = .ok (Date 2024 3 15) ∧
      (check emptyWriter (requestWith (str "15-Mar-2024")) (fixedClock march15)).1
        = (false, false, false) :=
  check_twice_same_day emptyWriter emptyWriter requestWithout
    (requestWith (str "15-Mar-2024")) (fixedClock march15) (fixedClock march15)
    { Name := name, Value := str "15-Mar-2024", Path := [], Expires := 0 }
    (by decide) (by decide) (by decide) (by decide) (by decide) (by decide)

/-- Counterexample to C7 as stated: on 10000-01-01 `check` issues the value
"01-Jan-10000", which does not parse (a digit is left over after the four of the
year), so a second call on the same day returns (true, true, false); and on the
first of January of year -1 the issued value "01-Jan--0001" does not parse either. -/
theorem check_twice_year_10000 :
    newYear10000.Valid ∧
      ((check emptyWriter requestWithout (fixedClock newYear10000)).2.1.cookies.getLast?).map
        Cookie.Value = some (str "01-Jan-10000") ∧
      Parse (str "01-Jan-10000") = .error ParseError.extraText ∧
      (check emptyWriter (requestWith (str "01-Jan-10000")) (fixedClock newYear10000)).1
        = (true, true, false) ∧
      ((check emptyWriter requestWithout (fixedClock newYearMinus1)).2.1.cookies.getLast?).map
        Cookie.Value = some (str "01-Jan--0001") ∧
      (check emptyWriter (requestWith (str "01-Jan--0001")) (fixedClock newYearMinus1)).1
        = (true, true, false) := by
  refine ⟨by decide, by decide, by decide, by decide, by decide, by decide⟩

/-- C8: on every input `check` adds exactly one cookie to the response, named
"last_access", with path "/" and with `now` formatted in the layout as its value;
the response does not depend on the incoming request. -/
theorem check_issues_one_cookie (w : ResponseWriter) (r : Request) (k : Clock) :
    (∃ e : Int, (check w r k).2.1.cookies = w.cookies ++
        [{ Name := str "last_access", Value := (Now k).1.Format, Path := str "/",
           Expires := e }]) ∧
      ∀ r2 : Request, (check w r2 k).2.1 = (check w r k).2.1 := by
  have key : ∀ q : Request, (check w q k).2.1 =
      (setCookie w (Now k).1 (Now k).2).1 := by
    intro q
    simp only [check, Now]
    split
    · split <;> rfl
    · split
      · rfl
      · repeat' split
        all_goals rfl
  refine ⟨⟨(Now (Now k).2).1.Add expires, ?_⟩, fun r2 => ?_⟩
  · rw [key r]; rfl
  · rw [key r2, key r]

/-- The example of the specification: on 2024-03-15 the issued cookie is named
"last_access", has the value "15-Mar-2024" and the path "/", and expires 30 days
after 2024-03-15T10:00:00Z. -/
theorem check_issues_example :
    (check emptyWriter requestWithout (fixedClock march15)).2.1.cookies =
      [{ Name := str "last_access", Value := str "15-Mar-2024", Path := str "/",
         Expires := 1713088800 * 1000000000 }] := by
  decide

/-- C9: on every input the `Expires` field of the cookie that `check` issues is
the clock reading taken inside `setCookie` (the second reading, not `now`) plus
30 days, that is 30 * 24 hours or 2,592,000 seconds. -/
theorem check_cookie_expires (w : ResponseWriter) (r : Request) (k : Clock) :
    ((check w r k).2.1.cookies.getLast?).map Cookie.Expires
        = some ((Now (Now k).2).1.unixNano + 2592000 * 1000000000) ∧
      expires = 30 * (24 * (3600 * 1000000000)) := by
  have key : (check w r k).2.1 = (setCookie w (Now k).1 (Now k).2).1 := by
    simp only [check, Now]
    split
    · split <;> rfl
    · split
      · rfl
      · repeat' split
        all_goals rfl
  refine ⟨?_, by decide⟩
  rw [key]
  simp [setCookie, SetCookie, Now, Time.Add, expires, Hour]

/-- C10: on every input the third result of `check` is true exactly when the
cookie lookup failed with `http.ErrNoCookie`. -/
theorem check_noCookie_iff (w : ResponseWriter) (r : Request) (k : Clock) :
    (check w r k).1.2.2 = true ↔ r.Cookie name = .error Error.ErrNoCookie := by
  simp only [check, Now]
  split
  · next err h =>
    by_cases he : err = Error.ErrNoCookie
    · simp [he, h]
    · simp [he, h]
  · next c h =>
    split
    · simp [h]
    · repeat' split
      all_goals simp [h]

/-! ### The accessors and the shape of the result -/

/-- The result of `check` in closed form: the flags are fixed by the outcome of
the lookup, of the parse and of the three comparisons. -/
theorem check_flags (w : ResponseWriter) (r : Request) (k : Clock) :
    (check w r k).1 =
      match r.Cookie name with
      | .error err => (true, true, decide (err = Error.ErrNoCookie))
      | .ok c =>
        match Parse c.Value with
        | .error _ => (true, true, false)
        | .ok ct =>
          (decide (¬ (ct.year = (Now k).1.year ∧ ct.month = (Now k).1.month
              ∧ ct.day = (Now k).1.day)),
           decide (¬ (ct.year = (Now k).1.year ∧ ct.month = (Now k).1.month)), false) := by
  simp only [check, Now]
  split
  · next err h =>
    by_cases he : err = Error.ErrNoCookie <;> simp [he]
  · next c h =>
    split
    · rfl
    · next ct hp =>
      by_cases hy : ct.year = (k.readings k.taken).year
      · by_cases hm : ct.month = (k.readings k.taken).month
        · by_cases hd : ct.day = (k.readings k.taken).day <;> simp [hy, hm, hd]
        · simp [hy, hm]
      · simp [hy]

/-- What the method `NoCookie` computes: for every request, `New(w, r).NoCookie()`
is true exactly when the lookup of the `last_access` cookie fails with
`http.ErrNoCookie`, that is when the request carried no such cookie. -/
theorem New_NoCookie_iff (w : ResponseWriter) (r : Request) (k : Clock) :
    (New w r k).1.NoCookie = true ↔ r.Cookie name = .error Error.ErrNoCookie := by
  have h : (New w r k).1.NoCookie = (check w r k).1.2.2 := rfl
  rw [h, check_flags]
  split
  · next err he => simp [he]
  · next c hc =>
    split <;> simp [hc]

/-- C11: the code against its own doc comment.  The comment on `NoCookie`
(`uniquedevice.go`, lines 102-104) says that it returns whether the device
provided a cookie; yet a request that carries the cookie "15-Mar-2024" gets
`NoCookie() = false`, and a request that carries no cookie gets
`NoCookie() = true`. -/
theorem New_NoCookie_with_cookie :
    (requestWith (str "15-Mar-2024")).Cookie name
        = .ok { Name := name, Value := str "15-Mar-2024", Path := [], Expires := 0 } ∧
      (New emptyWriter (requestWith (str "15-Mar-2024")) (fixedClock march15)).1.NoCookie
        = false ∧
      requestWithout.Cookie name = .error Error.ErrNoCookie ∧
      (New emptyWriter requestWithout (fixedClock march15)).1.NoCookie = true := by
  refine ⟨by decide, by decide, by decide, by decide⟩

/-- C13: `New` always returns a `UniqueDevice`: reading `c.Value` never goes
through a nil pointer (the pointer is read only where the lookup returned no
error), so `check` ends without a panic on every lookup outcome, every cookie
string and every `now`; and the three accessors return the three results of
`check`. -/
theorem New_never_fails (w : ResponseWriter) (r : Request) (k : Clock) :
    checkDeref w r k = some (check w r k) ∧
      (New w r k).1.DailyUnique = (check w r k).1.1 ∧
      (New w r k).1.MonthlyUnique = (check w r k).1.2.1 ∧
      (New w r k).1.NoCookie = (check w r k).1.2.2 ∧
      (New w r k).2 = (check w r k).2 := by
  refine ⟨?_, rfl, rfl, rfl, rfl⟩
  simp only [checkDeref, check, CookiePair, Now]
  cases hres : r.Cookie name with
  | error e =>
    by_cases he : e = Error.ErrNoCookie <;> simp [he]
  | ok c =>
    cases hp : Parse c.Value with
    | error e => simp [hp]
    | ok ct =>
      by_cases hy : ct.year = (k.readings k.taken).year
      · by_cases hm : ct.month = (k.readings k.taken).month
        · by_cases hd : ct.day = (k.readings k.taken).day <;> simp [hp, hy, hm, hd]
        · simp [hp, hy, hm]
      · simp [hp, hy]

/-- C14: direction independence.  When one call has `now` on date a and a cookie
that parses to date b, and another call has `now` on date b and a cookie that
parses to date a, both return the same flags; the flags are fixed by which of
year, month and day are equal, whichever of the two dates is the later one. -/
theorem check_direction_independent (w1 w2 : ResponseWriter) (r1 r2 : Request)
    (k1 k2 : Clock) (c1 c2 : Cookie) (ct1 ct2 : Time)
    (h1 : r1.Cookie name = .ok c1) (p1 : Parse c1.Value = .ok ct1)
    (h2 : r2.Cookie name = .ok c2) (p2 : Parse c2.Value = .ok ct2)
    (hb : ct1.year = (Now k2).1.year ∧ ct1.month = (Now k2).1.month
      ∧ ct1.day = (Now k2).1.day)
    (ha : ct2.year = (Now k1).1.year ∧ ct2.month = (Now k1).1.month
      ∧ ct2.day = (Now k1).1.day) :
    (check w1 r1 k1).1 = (check w2 r2 k2).1 ∧
      (check w1 r1 k1).1 =
        (decide (¬ (ct1.year = ct2.year ∧ ct1.month = ct2.month ∧ ct1.day = ct2.day)),
         decide (¬ (ct1.year = ct2.year ∧ ct1.month = ct2.month)), false) := by
  obtain ⟨hby, hbm, hbd⟩ := hb
  obtain ⟨hay, ham, had⟩ := ha
  rw [check_flags, check_flags, h1, h2]
  simp only [p1, p2, ← hby, ← hbm, ← hbd, ← hay, ← ham, ← had]
  simp only [eq_comm, and_self]

/-- Witness of C14: a = 2024-03-15 and b = 2024-02-20 give (true, true, false)
in both directions. -/
theorem check_direction_independent_witness :
    (check emptyWriter (requestWith (str "20-Feb-2024")) (fixedClock march15)).1
        = (check emptyWriter (requestWith (str "15-Mar-2024"))
            (fixedClock (Date 2024 2 20))).1 ∧
      (check emptyWriter (requestWith (str "20-Feb-2024")) (fixedClock march15)).1
        = (decide (¬ ((Date 2024 2 20).year = (Date 2024 3 15).year
              ∧ (Date 2024 2 20).month = (Date 2024 3 15).month
              ∧ (Date 2024 2 20).day = (Date 2024 3 15).day)),
           decide (¬ ((Date 2024 2 20).year = (Date 2024 3 15).year
              ∧ (Date 2024 2 20).month = (Date 2024 3 15).month)), false) :=
  check_direction_independent emptyWriter emptyWriter (requestWith (str "20-Feb-2024"))
    (requestWith (str "15-Mar-2024")) (fixedClock march15) (fixedClock (Date 2024 2 20))
    { Name := name, Value := str "20-Feb-2024", Path := [], Expires := 0 }
    { Name := name, Value := str "15-Mar-2024", Path := [], Expires := 0 }
    (Date 2024 2 20) (Date 2024 3 15)
    (by decide) (by decide) (by decide) (by decide) (by decide) (by decide)

/-- C15: the result of `check` is always one of (true, true, true),
(true, true, false), (true, false, false) and (false, false, false); hence
monthlyUnique implies dailyUnique, and noCookie implies both. -/
theorem check_four_results (w : ResponseWriter) (r : Request) (k : Clock) :
    ((check w r k).1 = (true, true, true) ∨ (check w r k).1 = (true, true, false) ∨
        (check w r k).1 = (true, false, false) ∨ (check w r k).1 = (false, false, false)) ∧
      ((check w r k).1.2.1 = true → (check w r k).1.1 = true) ∧
      ((check w r k).1.2.2 = true →
        (check w r k).1.2.1 = true ∧ (check w r k).1.1 = true) := by
  have four : (check w r k).1 = (true, true, true) ∨ (check w r k).1 = (true, true, false) ∨
      (check w r k).1 = (true, false, false) ∨ (check w r k).1 = (false, false, false) := by
    simp only [check, Now]
    split
    · split <;> simp
    · split
      · simp
      · repeat' split
        all_goals simp
  refine ⟨four, ?_, ?_⟩
  · rcases four with h | h | h | h <;> simp [h]
  · rcases four with h | h | h | h <;> simp [h]

/-- Witness of C15: the four results are all reached on 2024-03-15. -/
theorem check_four_results_witness :
    (check emptyWriter requestWithout (fixedClock march15)).1 = (true, true, true) ∧
      (check emptyWriter (requestWith (str "20-Feb-2024")) (fixedClock march15)).1
        = (true, true, false) ∧
      (check emptyWriter (requestWith (str "01-Mar-2024")) (fixedClock march15)).1
        = (true, false, false) ∧
      (check emptyWriter (requestWith (str "15-Mar-2024")) (fixedClock march15)).1
        = (false, false, false) ∧
      (check emptyWriter requestWithout (fixedClock march15)).1.2.1 = true ∧
      (check emptyWriter requestWithout (fixedClock march15)).1.1 = true :=
  ⟨by decide, by decide, by decide, by decide, by decide,
   (check_four_results emptyWriter requestWithout (fixedClock march15)).2.1 (by decide)⟩

/-- C16: time-of-day independence.  For every request and any two readings of
`now` with the same year, month and day, `check` returns the same flags and
issues the same cookie value. -/
theorem check_time_of_day_independent (w1 w2 : ResponseWriter) (r : Request)
    (k1 k2 : Clock)
    (hy : (Now k1).1.year = (Now k2).1.year) (hm : (Now k1).1.month = (Now k2).1.month)
    (hd : (Now k1).1.day = (Now k2).1.day) :
    (check w1 r k1).1 = (check w2 r k2).1 ∧
      ((check w1 r k1).2.1.cookies.getLast?).map Cookie.Value
        = ((check w2 r k2).2.1.cookies.getLast?).map Cookie.Value := by
  have key : ∀ (w : ResponseWriter) (k : Clock),
      ((check w r k).2.1.cookies.getLast?).map Cookie.Value = some (Now k).1.Format := by
    intro w k
    have hw : (check w r k).2.1 = (setCookie w (Now k).1 (Now k).2).1 := by
      simp only [check, Now]
      split
      · split <;> rfl
      · split
        · rfl
        · repeat' split
          all_goals rfl
    rw [hw]
    simp [setCookie, SetCookie, Now]
  constructor
  · rw [check_flags, check_flags, hy, hm, hd]
  · rw [key, key]
    simp only [Time.Format, hy, hm, hd]

/-- Witness of C16: 2024-03-15T10:00:00Z and 2024-03-15T00:00:00Z, with the
cookie "01-Mar-2024". -/
theorem check_time_of_day_independent_witness :
    march15.unixNano ≠ (Date 2024 3 15).unixNano ∧
      (check emptyWriter (requestWith (str "01-Mar-2024")) (fixedClock march15)).1
        = (check emptyWriter (requestWith (str "01-Mar-2024"))
            (fixedClock (Date 2024 3 15))).1 ∧
      ((check emptyWriter (requestWith (str "01-Mar-2024"))
          (fixedClock march15)).2.1.cookies.getLast?).map Cookie.Value
        = ((check emptyWriter (requestWith (str "01-Mar-2024"))
            (fixedClock (Date 2024 3 15))).2.1.cookies.getLast?).map Cookie.Value :=
  ⟨by decide,
   check_time_of_day_independent emptyWriter emptyWriter (requestWith (str "01-Mar-2024"))
    (fixedClock march15) (fixedClock (Date 2024 3 15)) (by decide) (by decide) (by decide)⟩

/-! ### Days that do not exist -/

/-- The function `Parse` rejects a text of the shape DD-Mon-YYYY whose day is
zero or is larger than the number of days of the month in that year. -/
theorem Parse_day_out_of_range (a b m y1 y2 y3 y4 : Nat)
    (ha : a < 10) (hb : b < 10) (m1 : 1 ≤ m) (m12 : m ≤ 12)
    (h1 : y1 < 10) (h2 : y2 < 10) (h3 : y3 < 10) (h4 : y4 < 10)
    (hbad : a * 10 + b < 1 ∨
      a * 10 + b > daysIn m ((y1 * 1000 + y2 * 100 + y3 * 10 + y4 : Nat) : Int)) :
    Parse ((48 + a) :: (48 + b) :: 45 :: (shortMonthNames.getD (m - 1) [] ++
        [45, 48 + y1, 48 + y2, 48 + y3, 48 + y4])) = .error ParseError.dayOutOfRange := by
  have em : m - 1 + 1 = m := by omega
  have hdig : isDigit [48 + y1, 48 + y2, 48 + y3, 48 + y4] 0 = true := by
    simp [isDigit]
    omega
  simp only [Parse]
  rw [getnum_two a b ha hb]
  simp only [skip_dash]
  rw [lookup_abbrev m m1 m12]
  simp only [skip_dash, hdig, em]
  simp only [List.length_cons, List.length_nil, List.take, List.drop]
  rw [atoi_four _ _ _ _ h1 h2 h3 h4]
  simp only [List.length_nil, ne_eq, not_true_eq_false, if_false]
  rw [if_pos hbad]
  simp

/-- C17: a cookie of the shape DD-Mon-YYYY (two digits, hyphen, month
abbreviation, hyphen, four digits) whose day does not exist in that month and
year is rejected by the parse, and `check` returns (true, true, false) for
every `now`. -/
theorem check_nonexistent_day (w : ResponseWriter) (r : Request) (k : Clock) (c : Cookie)
    (a b m y1 y2 y3 y4 : Nat)
    (ha : a < 10) (hb : b < 10) (m1 : 1 ≤ m) (m12 : m ≤ 12)
    (h1 : y1 < 10) (h2 : y2 < 10) (h3 : y3 < 10) (h4 : y4 < 10)
    (hc : r.Cookie name = .ok c)
    (hv : c.Value = (48 + a) :: (48 + b) :: 45 :: (shortMonthNames.getD (m - 1) [] ++
        [45, 48 + y1, 48 + y2, 48 + y3, 48 + y4]))
    (hbad : a * 10 + b < 1 ∨
      a * 10 + b > daysIn m ((y1 * 1000 + y2 * 100 + y3 * 10 + y4 : Nat) : Int)) :
    Parse c.Value = .error ParseError.dayOutOfRange ∧
      (check w r k).1 = (true, true, false) := by
  have hp : Parse c.Value = .error ParseError.dayOutOfRange := by
    rw [hv]
    exact Parse_day_out_of_range a b m y1 y2 y3 y4 ha hb m1 m12 h1 h2 h3 h4 hbad
  refine ⟨hp, ?_⟩
  rw [check_flags, hc]
  simp only [hp]

/-- Witness of C17: the cookie "31-Feb-2024" on 2024-03-02, the day that the
31st of February would be if the date were normalised. -/
theorem check_nonexistent_day_witness :
    Parse (str "31-Feb-2024") = .error ParseError.dayOutOfRange ∧
      (check emptyWriter (requestWith (str "31-Feb-2024"))
        (fixedClock (Date 2024 3 2))).1 = (true, true, false) :=
  check_nonexistent_day emptyWriter (requestWith (str "31-Feb-2024"))
    (fixedClock (Date 2024 3 2))
    { Name := name, Value := str "31-Feb-2024", Path := [], Expires := 0 }
    3 1 2 2 0 2 4 (by decide) (by decide) (by decide) (by decide) (by decide) (by decide)
    (by decide) (by decide) (by decide) (by decide) (by decide)

/-- The other examples of C17: "29-Feb-2023" and "00-Mar-2024" are rejected too,
also on the days they would be normalised to. -/
theorem check_nonexistent_day_examples :
    Parse (str "29-Feb-2023") = .error ParseError.dayOutOfRange ∧
      (check emptyWriter (requestWith (str "29-Feb-2023"))
        (fixedClock (Date 2023 3 1))).1 = (true, true, false) ∧
      Parse (str "00-Mar-2024") = .error ParseError.dayOutOfRange ∧
      (check emptyWriter (requestWith (str "00-Mar-2024"))
        (fixedClock (Date 2024 2 29))).1 = (true, true, false) := by
  refine ⟨by decide, by decide, by decide, by decide⟩

/-! ### The pattern of the cookie value on read -/

/-- A byte whose bit 32 set gives at most 122 is below 128. -/
theorem lor_32_lt (c : Nat) (h : c ||| 32 ≤ 122) : c < 128 := by
  have hr : c % 128 < 2 ^ 7 := by
    have := Nat.mod_lt c (show 128 > 0 by norm_num)
    norm_num
    omega
  have h32 : (32 : Nat) < 2 ^ 7 := by norm_num
  have e : c ||| 32 = 2 ^ 7 * (c / 128) + (c % 128 ||| 32) := by
    have h1 : c = 2 ^ 7 * (c / 128) + c % 128 := by
      have := Nat.div_add_mod c 128
      norm_num
      omega
    conv_lhs => rw [h1]
    rw [Nat.mul_add_lt_is_or hr, Nat.or_assoc,
      ← Nat.mul_add_lt_is_or (Nat.or_lt_two_pow hr h32)]
  rw [e] at h
  norm_num at h
  omega

/-- Setting bit 32 of a letter is bringing it to lower case. -/
theorem toLower_of_lor (c : Nat) (h1 : 97 ≤ c ||| 32) (h2 : c ||| 32 ≤ 122) :
    toLower c = c ||| 32 := by
  have hc := lor_32_lt c h2
  have key : ∀ d, d < 128 → 97 ≤ d ||| 32 → d ||| 32 ≤ 122 → toLower d = d ||| 32 := by
    decide
  exact key c hc h1 h2

/-- Two strings that Go's `match` accepts are equal once brought to lower case. -/
theorem match_toLower (s1 s2 : List Nat) (hl : s1.length = s2.length)
    (h : «match» s1 s2 = true) : s1.map toLower = s2.map toLower := by
  induction s1 generalizing s2 with
  | nil =>
    cases s2 with
    | nil => rfl
    | cons c2 t2 => simp at hl
  | cons c1 t1 ih =>
    cases s2 with
    | nil => simp at hl
    | cons c2 t2 =>
      simp only [List.length_cons, Nat.add_right_cancel_iff] at hl
      simp only [«match»] at h
      by_cases hc : c1 = c2
      · simp only [hc, ne_eq, not_true_eq_false, if_false] at h
        simp [hc, ih t2 hl h]
      · simp only [ne_eq, hc, not_false_eq_true, if_true] at h
        by_cases hd : (c1 ||| 32 ≠ c2 ||| 32 ∨ c1 ||| 32 < 97 ∨ c1 ||| 32 > 122)
        · simp [hd] at h
        · simp only [hd, if_false] at h
          have e1 : c1 ||| 32 = c2 ||| 32 := by
            by_contra hne
            exact hd (Or.inl hne)
          have b1 : 97 ≤ c1 ||| 32 := by omega
          have b2 : c1 ||| 32 ≤ 122 := by omega
          have t1e := toLower_of_lor c1 b1 b2
          have t2e := toLower_of_lor c2 (by omega) (by omega)
          simp [t1e, t2e, e1, ih t2 hl h]


/-- When `getnum` reads a fixed number, the text starts with two digits. -/
theorem getnum_inv (s v : List Nat) (d : Nat) (h : getnum s true = .ok (d, v)) :
    ∃ a b, s = a :: b :: v ∧ isDigitByte a = true ∧ isDigitByte b = true := by
  cases s with
  | nil => simp [getnum, isDigit] at h
  | cons a t =>
    cases t with
    | nil => simp [getnum, isDigit] at h
    | cons b t2 =>
      simp only [getnum] at h
      by_cases h0 : isDigit (a :: b :: t2) 0 = true
      · by_cases h1 : isDigit (a :: b :: t2) 1 = true
        · simp [h0, h1] at h
          simp [isDigit] at h0 h1
          refine ⟨a, b, by rw [h.2], ?_, ?_⟩
          · simp [isDigitByte, h0]
          · simp [isDigitByte, h1]
        · simp [h0, h1] at h
      · simp [h0] at h

/-- When `skip` removes the hyphen, the text starts with a hyphen. -/
theorem skip_dash_inv (v w : List Nat) (h : skip v (str "-") = .ok w) : v = 45 :: w := by
  rw [str_dash] at h
  cases v with
  | nil => simp [skip, skipLoop] at h
  | cons a t =>
    simp only [skip, skipLoop, List.length_cons, List.length_nil] at h
    by_cases ha : a = 45
    · simp [ha] at h
      simp [ha, h]
    · simp [ha] at h

/-- When `lookupLoop` finds an entry, the text starts with it up to letter case. -/
theorem lookupLoop_inv (val : List Nat) (tab : List (List Nat)) (i m : Nat) (w : List Nat)
    (h : lookupLoop val i tab = .ok (m, w)) :
    ∃ v ∈ tab, v.length ≤ val.length ∧ «match» (val.take v.length) v = true
      ∧ w = val.drop v.length := by
  induction tab generalizing i with
  | nil => simp [lookupLoop] at h
  | cons v rest ih =>
    simp only [lookupLoop] at h
    by_cases hc : val.length ≥ v.length ∧ «match» (val.take v.length) v = true
    · simp only [hc, and_self, if_true, Except.ok.injEq, Prod.mk.injEq] at h
      exact ⟨v, List.mem_cons_self _ _, hc.1, hc.2, h.2.symm⟩
    · simp only [hc, if_false] at h
      obtain ⟨v2, hv2, r⟩ := ih (i + 1) h
      exact ⟨v2, List.mem_cons_of_mem _ hv2, r⟩

/-- When `lookup` finds a month, the text starts with three letters that are a month abbreviation up to letter case. -/
theorem lookup_month_inv (val w : List Nat) (m : Nat)
    (h : lookup shortMonthNames val = .ok (m, w)) :
    ∃ l1 l2 l3, val = l1 :: l2 :: l3 :: w ∧
      [l1, l2, l3].map toLower ∈ shortMonthNames.map (List.map toLower) := by
  obtain ⟨v, hv, hlen, hm, hw⟩ := lookupLoop_inv val shortMonthNames 0 m w h
  have h3 : v.length = 3 := by
    rw [shortMonthNames_eq] at hv
    simp only [List.mem_cons, List.mem_singleton, List.not_mem_nil, or_false] at hv
    rcases hv with e | e | e | e | e | e | e | e | e | e | e | e <;> rw [e] <;> rfl
  rw [h3] at hlen hm hw
  match val, hlen, hm, hw with
  | l1 :: l2 :: l3 :: t, _, hm, hw =>
    simp only [List.drop] at hw
    refine ⟨l1, l2, l3, by rw [hw], ?_⟩
    have e := match_toLower [l1, l2, l3] v (by simp [h3]) (by simpa using hm)
    rw [e]
    exact List.mem_map_of_mem _ hv


/-- When `atoi` reads four bytes that start with a digit, all four are digits. -/
theorem atoi_inv (y1 y2 y3 y4 : Nat) (y : Int) (h1 : isDigitByte y1 = true)
    (h : atoi [y1, y2, y3, y4] = .ok y) :
    isDigitByte y2 = true ∧ isDigitByte y3 = true ∧ isDigitByte y4 = true := by
  simp only [isDigitByte, decide_eq_true_eq] at h1 ⊢
  have e1 : ¬ (y1 = 45) := by omega
  have e2 : ¬ (y1 = 43) := by omega
  have d1 : ¬ (y1 < 48 ∨ y1 > 57) := by omega
  have p : (2 : Nat) ^ 63 = 9223372036854775808 := by norm_num
  have o0 : ¬ (0 > 9223372036854775808 / 10) := by omega
  have q1 : ¬ (0 * 10 + y1 - 48 > 9223372036854775808) := by omega
  have o1 : ¬ (0 * 10 + y1 - 48 > 9223372036854775808 / 10) := by omega
  simp only [atoi, List.length_cons, List.getD_cons_zero, e1, e2, or_self, and_false, if_false,
    leadingInt, leadingIntLoop, d1, p, o0, q1, o1] at h
  by_cases d2 : (y2 < 48 ∨ y2 > 57)
  · simp [d2] at h
  · have q2 : ¬ ((0 * 10 + y1 - 48) * 10 + y2 - 48 > 9223372036854775808) := by omega
    have o2 : ¬ ((0 * 10 + y1 - 48) * 10 + y2 - 48 > 9223372036854775808 / 10) := by omega
    simp only [d2, q2, o2, if_false] at h
    by_cases d3 : (y3 < 48 ∨ y3 > 57)
    · simp [d3] at h
    · have q3 : ¬ (((0 * 10 + y1 - 48) * 10 + y2 - 48) * 10 + y3 - 48
          > 9223372036854775808) := by omega
      have o3 : ¬ (((0 * 10 + y1 - 48) * 10 + y2 - 48) * 10 + y3 - 48
          > 9223372036854775808 / 10) := by omega
      simp only [d3, q3, o3, if_false] at h
      by_cases d4 : (y4 < 48 ∨ y4 > 57)
      · simp [d4] at h
      · omega

/-- When the year is read and nothing is left over, the text is four digits. -/
theorem year_inv (v : List Nat) (y : Int) (hlen : ¬ (v.length < 4 ∨ isDigit v 0 = false))
    (ha : atoi (v.take 4) = .ok y) (hrest : (v.drop 4).length = 0) :
    ∃ y1 y2 y3 y4, v = [y1, y2, y3, y4] ∧ isDigitByte y1 = true ∧ isDigitByte y2 = true
      ∧ isDigitByte y3 = true ∧ isDigitByte y4 = true := by
  match v, hlen, ha, hrest with
  | [], hlen, _, _ => simp at hlen
  | [_], hlen, _, _ => simp at hlen
  | [_, _], hlen, _, _ => simp at hlen
  | [_, _, _], hlen, _, _ => simp at hlen
  | y1 :: y2 :: y3 :: y4 :: t, hlen, ha, hrest =>
    simp only [List.drop, List.length_eq_zero] at hrest
    simp only [List.take] at ha
    have h1 : isDigitByte y1 = true := by
      simp [isDigit] at hlen
      simp [isDigitByte, hlen]
    obtain ⟨h2, h3, h4⟩ := atoi_inv y1 y2 y3 y4 y h1 ha
    exact ⟨y1, y2, y3, y4, by rw [hrest], h1, h2, h3, h4⟩

/-- Every text that `Parse` accepts has the pattern DD-Mon-YYYY, the month abbreviation in any letter case. -/
theorem Parse_ok_matches (s : List Nat) (ct : Time) (h : Parse s = .ok ct) :
    matchesPatternAnyCase s = true := by
  simp only [Parse] at h
  cases hg : getnum s true with
  | error e => simp [hg] at h
  | ok p =>
    obtain ⟨day, v1⟩ := p
    simp only [hg] at h
    cases hs : skip v1 (str "-") with
    | error e => simp [hs] at h
    | ok v2 =>
      simp only [hs] at h
      cases hl : lookup shortMonthNames v2 with
      | error e => simp [hl] at h
      | ok q =>
        obtain ⟨m, v3⟩ := q
        simp only [hl] at h
        cases hs2 : skip v3 (str "-") with
        | error e => simp [hs2] at h
        | ok v4 =>
          simp only [hs2] at h
          by_cases hlen : (v4.length < 4 ∨ isDigit v4 0 = false)
          · simp [hlen] at h
          · simp only [hlen, if_false] at h
            cases hy : atoi (v4.take 4) with
            | error e => simp [hy] at h
            | ok y =>
              simp only [hy] at h
              by_cases hrest : (v4.drop 4).length ≠ 0
              · rw [if_pos hrest] at h
                cases h
              · have hrest0 : (v4.drop 4).length = 0 := by omega
                obtain ⟨a, b, es, da, db⟩ := getnum_inv s v1 day hg
                have e1 := skip_dash_inv v1 v2 hs
                obtain ⟨l1, l2, l3, e2, hmem⟩ := lookup_month_inv v2 v3 m hl
                have e3 := skip_dash_inv v3 v4 hs2
                obtain ⟨y1, y2, y3, y4, e4, k1, k2, k3, k4⟩ := year_inv v4 y hlen hy hrest0
                rw [es, e1, e2, e3, e4]
                simp [matchesPatternAnyCase, da, db, k1, k2, k3, k4]
                simpa using hmem


/-- C12 (amended): every cookie value that deviates from the pattern two digits,
hyphen, three letters of a month abbreviation in any letter case, hyphen, four
digits fails to parse, and `check` returns (true, true, false) for every `now`. -/
theorem check_pattern_mismatch (w : ResponseWriter) (r : Request) (k : Clock) (c : Cookie)
    (hc : r.Cookie name = .ok c) (hm : matchesPatternAnyCase c.Value = false) :
    (∃ e, Parse c.Value = .error e) ∧ (check w r k).1 = (true, true, false) := by
  cases hp : Parse c.Value with
  | ok ct =>
    have := Parse_ok_matches c.Value ct hp
    rw [hm] at this
    cases this
  | error e =>
    refine ⟨⟨e, rfl⟩, ?_⟩
    rw [check_flags, hc]
    simp only [hp]

/-- Witness of C12 (amended): the cookie "5-Mar-2024", with a one-digit day, on
2024-03-05. -/
theorem check_pattern_mismatch_witness :
    (∃ e, Parse (str "5-Mar-2024") = .error e) ∧
      (check emptyWriter (requestWith (str "5-Mar-2024")) (fixedClock (Date 2024 3 5))).1
        = (true, true, false) :=
  check_pattern_mismatch emptyWriter (requestWith (str "5-Mar-2024"))
    (fixedClock (Date 2024 3 5))
    { Name := name, Value := str "5-Mar-2024", Path := [], Expires := 0 }
    (by decide) (by decide)

/-- Counterexample to C12 as stated: the cookie "15-mar-2024" deviates from the
pattern (the formatter writes "Mar"), yet it parses to 2024-03-15, and on that day
`check` returns (false, false, false). -/
theorem check_pattern_other_case :
    matchesPattern (str "15-mar-2024") = false ∧
      Parse (str "15-mar-2024") = .ok (Date 2024 3 15) ∧
      (check emptyWriter (requestWith (str "15-mar-2024")) (fixedClock march15)).1
        = (false, false, false) := by
  refine ⟨by decide, by decide, by decide⟩

/-- The other deviations named in C12 are rejected: extra characters after the
year, and a two-digit year. -/
theorem check_pattern_examples :
    matchesPatternAnyCase (str "15-Mar-2024x") = false ∧
      Parse (str "15-Mar-2024x") = .error ParseError.extraText ∧
      matchesPatternAnyCase (str "15-Mar-24") = false ∧
      Parse (str "15-Mar-24") = .error ParseError.bad ∧
      matchesPattern (str "15-Mar-2024") = true := by
  refine ⟨by decide, by decide, by decide, by decide, by decide⟩

end uniquedevice
